import Mathlib

/-!
Shallow embedding of the SimpleLogin forward/reply relay engine
(src/email_handler.py, with the reply-token creation pattern also present in
src/app/dashboard/views/alias_detail.py), together with proofs about the
claims of the specification.

Database rows become Lean structures, the shared database becomes an explicit
`Store` value threaded through the handlers, the SMTP transport and the
notification mails become lists of records in the result, and the Python
exceptions that the handler code can raise (IndexError on an empty recipient
list, KeyError from Message.replace_header, the AttributeError from
dereferencing an absent CustomDomain row) become an `Except Fault` result.
Helper functions of app/email_utils.py and app/utils.py are not part of the
provided sources; they are modelled from the specification and marked as such.
-/

/-- Configuration constants of app/config.py used by the handler. -/
structure Config where
  EMAIL_DOMAIN : String
  ALIAS_DOMAINS : List String
  URL : String
deriving DecidableEq

/-- A row of the User table, restricted to the fields the handler reads. -/
structure User where
  id : Nat
  email : String
  name : String
  can_create_new_alias : Bool
deriving DecidableEq

/-- A row of the GenEmail (alias) table. The pair mailbox_id / mailbox.email is
collapsed into one optional field: `some m` when the alias has an explicit
mailbox with address m, `none` when it falls back to the owning user. -/
structure GenEmail where
  id : Nat
  email : String
  user_id : Nat
  enabled : Bool
  mailbox_email : Option String
  directory_id : Option Nat := none
  custom_domain_id : Option Nat := none
  automatic_creation : Bool := false
deriving DecidableEq

/-- A row of the ForwardEmail (correspondent mapping) table. -/
structure ForwardEmail where
  id : Nat
  gen_email_id : Nat
  website_email : String
  website_from : String
  reply_email : String
deriving DecidableEq

/-- A row of the ForwardEmailLog (activity log) table. Defaults of the model
(is_reply = false, blocked = false at creation) are modelled from the spec:
an ActivityLogEntry carries an is_reply flag and a blocked flag, the blocked
flag being set only when the alias is disabled. -/
structure ForwardEmailLog where
  id : Nat
  forward_id : Nat
  is_reply : Bool
  blocked : Bool
deriving DecidableEq

/-- A row of the CustomDomain table. -/
structure CustomDomain where
  id : Nat
  domain : String
  user_id : Nat
  catch_all : Bool
  dkim_verified : Bool
deriving DecidableEq

/-- A row of the Directory table. -/
structure Directory where
  id : Nat
  name : String
  user_id : Nat
deriving DecidableEq

/-- The database state. `users` is total because every user_id stored in a row
references an existing User row (foreign-key integrity). The next_* counters
model primary-key assignment on insert. -/
structure Store where
  users : Nat → User
  gen_emails : List GenEmail
  forward_emails : List ForwardEmail
  forward_email_logs : List ForwardEmailLog
  custom_domains : List CustomDomain
  directories : List Directory
  next_gen_id : Nat
  next_fe_id : Nat
  next_log_id : Nat

/-- The SMTP envelope as received by handle_DATA. The parsed message is passed
separately. -/
structure Envelope where
  mail_from : String
  rcpt_tos : List String
  mail_options : List String := []
  rcpt_options : List String := []
deriving DecidableEq

/-- A parsed mail message: ordered header list plus body. -/
structure Msg where
  headers : List (String × String)
  body : String
deriving DecidableEq

/-- One call to smtp.sendmail. -/
structure SentMail where
  from_addr : String
  to_addr : String
  raw : String
  mail_options : List String
  rcpt_options : List String
deriving DecidableEq

/-- One notification mail (send_email / send_cannot_create_directory_alias /
send_cannot_create_domain_alias). -/
inductive Notice where
  | cannot_create_directory_alias (user_email aliasAddr directory_name : String)
  | cannot_create_domain_alias (user_email aliasAddr domain : String)
  | reply_must_use_personal_email (mailbox_email aliasAddr sender : String)
  | sender_not_allowed (sender reply_email : String)
deriving DecidableEq

/-- Address a notification is delivered to. -/
def Notice.recipient : Notice → String
  | .cannot_create_directory_alias u _ _ => u
  | .cannot_create_domain_alias u _ _ => u
  | .reply_must_use_personal_email m _ _ => m
  | .sender_not_allowed s _ => s

/-- The result of handling one envelope: the SMTP status string returned to the
session, the database state after commit, the outbound transport calls, the
notification mails, and the final state of the message object. -/
structure Outcome where
  status : String
  store : Store
  sent : List SentMail
  notices : List Notice
  msg : Msg

/-- Python exceptions the handler can raise. -/
inductive Fault where
  | index_error
  | type_error
  | key_error (header : String)
  | none_dkim_verified
  | missing_relation
deriving DecidableEq

/-! String helpers mirroring the Python string operations of the source.
They are written over List Char so that every definition is structurally
recursive and a concrete run of the handlers can be checked by the kernel. -/

/-- ASCII lowercasing of one character (Python str.lower restricted to the
ASCII range used by the addresses of this system). -/
def lowerChar (c : Char) : Char :=
  if 65 ≤ c.toNat ∧ c.toNat ≤ 90 then Char.ofNat (c.toNat + 32) else c

/-- Python str.lower. -/
def str_toLower (s : String) : String :=
  String.mk (s.toList.map lowerChar)

/-- Python str.endswith. -/
def str_endsWith (s t : String) : Bool :=
  List.isSuffixOf t.toList s.toList

/-- Python str.startswith. -/
def str_startsWith (s t : String) : Bool :=
  List.isPrefixOf t.toList s.toList

/-- Whitespace for str.strip. -/
def isWhite (c : Char) : Bool :=
  c == ' ' || c == '\t' || c == '\n' || c == '\r'

/-- Python str.strip. -/
def str_trim (s : String) : String :=
  String.mk (((s.toList.dropWhile isWhite).reverse.dropWhile isWhite).reverse)

/-- Replacement of every occurrence of pat, fuelled by the input length so the
recursion is structural. -/
def replaceFuel (pat rep : List Char) : Nat → List Char → List Char
  | _, [] => []
  | 0, l => l
  | fuel + 1, x :: xs =>
    if List.isPrefixOf pat (x :: xs) then rep ++ replaceFuel pat rep fuel ((x :: xs).drop pat.length)
    else x :: replaceFuel pat rep fuel xs

/-- Python str.replace (and bytes.replace): replace every occurrence. -/
def str_replace (s pat rep : String) : String :=
  if pat = "" then s else String.mk (replaceFuel pat.toList rep.toList s.toList.length s.toList)

/-- Occurrence of pat as a contiguous sublist. -/
def listContainsSub (pat : List Char) : List Char → Bool
  | [] => pat.isEmpty
  | x :: xs => List.isPrefixOf pat (x :: xs) || listContainsSub pat xs

/-! String helpers mirroring the Python slicing patterns of the source. -/

/-- Index of the first occurrence of a character, like Python str.find for a
single character (None instead of -1 when absent). -/
def find_idx (s : String) (c : Char) : Option Nat :=
  s.toList.findIdx? (fun a => a == c)

/-- Mirrors the Python slice s[: s.find(c)] when c occurs in s; the whole
string when it does not. -/
def beforeFirst (s : String) (c : Char) : String :=
  match find_idx s c with
  | none => s
  | some i => String.mk (s.toList.take i)

/-- Mirrors the Python slice s[s.find(c) + 1 :]: everything after the first
occurrence of c, and the whole string when c is absent (find gives -1, so the
slice starts at 0). -/
def afterFirst (s : String) (c : Char) : String :=
  match find_idx s c with
  | none => s
  | some i => String.mk (s.toList.drop (i + 1))

/-- Mirrors alias[alias.find("@") + 1 :] (src/email_handler.py line 309); the
same extraction is get_email_domain_part of app/email_utils.py, modelled from
the spec ("extract the domain part of the address"). -/
def get_email_domain_part (email : String) : String :=
  afterFirst email '@'

/-- Modelled from the spec: app/email_utils.email_belongs_to_alias_domains is
not part of the provided sources. Per the spec ("verify the alias domain is
either one of the service reserved domains"), an address belongs to the alias
domains iff its domain part is one of ALIAS_DOMAINS. -/
def email_belongs_to_alias_domains (cfg : Config) (email : String) : Bool :=
  cfg.ALIAS_DOMAINS.contains (get_email_domain_part email)

/-- Removes one matching pair of surrounding double quotes, as RFC 5322
display-name quoting is not part of the display name. -/
def strip_quotes (s : String) : String :=
  let l := s.toList
  if 2 ≤ l.length ∧ l.head? = some '"' ∧ l.getLast? = some '"' then
    String.mk ((l.drop 1).dropLast)
  else s

/-- Modelled from the spec: app/email_utils.get_email_name is not part of the
provided sources. It returns the display-name part of a From header value
(the part before the angle bracket, unquoted), and the empty string when the
header holds a bare address. The spec Header scenario maps
From with display name Jane Doe and address jane at biz.example to the
display name Jane Doe. -/
def get_email_name (email_from : String) : String :=
  match find_idx email_from '<' with
  | none => ""
  | some i => strip_quotes (str_trim (String.mk (email_from.toList.take i)))

/-- Modelled from the spec: app/email_utils.get_email_part is not part of the
provided sources. Per the spec ("Extract the correspondent address from the
From header (strip display name)") and the same extraction pattern in
src/app/dashboard/views/alias_detail.py (email_validator), it returns the part
between the first angle brackets when present, else the whole value. -/
def get_email_part (email_from : String) : String :=
  match find_idx email_from '<', find_idx email_from '>' with
  | some i, some j => str_trim (String.mk ((email_from.toList.drop (i + 1)).take (j - (i + 1))))
  | _, _ => str_trim email_from

/-! Header manipulation, modelled from the spec description of the Header
Transform helpers (remove(key), upsert(key, value), with case-insensitive key
lookup) and the Python email.message.Message methods used by the source. -/

/-- Case-insensitive header-key comparison. -/
def header_key_eq (a b : String) : Bool :=
  str_toLower a == str_toLower b

/-- Python Message.__getitem__: first header with the given key, else None. -/
def Msg.get (m : Msg) (k : String) : Option String :=
  (m.headers.find? (fun p => header_key_eq p.1 k)).map Prod.snd

/-- app/email_utils.delete_header, modelled from the spec: remove every header
with the given key. -/
def delete_header (m : Msg) (k : String) : Msg :=
  { m with headers := m.headers.filter (fun p => !header_key_eq p.1 k) }

/-- app/email_utils.add_or_replace_header, modelled from the spec: upsert of a
header value. -/
def add_or_replace_header (m : Msg) (k v : String) : Msg :=
  { m with headers := (m.headers.filter (fun p => !header_key_eq p.1 k)) ++ [(k, v)] }

/-- Replaces the value of the first header with the given key; none when the
key is absent. -/
def replaceFirstHeader (k v : String) : List (String × String) → Option (List (String × String))
  | [] => none
  | p :: rest =>
    if header_key_eq p.1 k then some ((p.1, v) :: rest)
    else (replaceFirstHeader k v rest).map (fun r => p :: r)

/-- Python Message.replace_header: replaces the first matching header, raises
KeyError (here: none) when the header is absent. -/
def Msg.replace_header (m : Msg) (k v : String) : Option Msg :=
  (replaceFirstHeader k v m.headers).map (fun h => { m with headers := h })

/-- app/email_utils.add_dkim_signature, modelled from the spec contract of the
external signer: attach a signature header for the signing domain. -/
def add_dkim_signature (m : Msg) (domain : String) : Msg :=
  add_or_replace_header m "DKIM-Signature" ("v=1; d=" ++ domain)

/-- Python Message.as_string: serialize headers and body. -/
def Msg.as_string (m : Msg) : String :=
  String.join (m.headers.map (fun p => p.1 ++ ": " ++ p.2 ++ "\n")) ++ "\n" ++ m.body

/-- Whether needle occurs as a substring of hay. -/
def contains_substr (hay needle : String) : Bool :=
  listContainsSub needle.toList hay.toList

/-! Store queries, mirroring the get_by calls of the source. -/

/-- GenEmail.get_by(email=...). -/
def GenEmail.get_by_email (s : Store) (email : String) : Option GenEmail :=
  s.gen_emails.find? (fun g => g.email == email)

/-- Resolution of the forward_email.gen_email relation. -/
def GenEmail.get_by_id (s : Store) (i : Nat) : Option GenEmail :=
  s.gen_emails.find? (fun g => g.id == i)

/-- ForwardEmail.get_by(gen_email_id=..., website_email=...). -/
def ForwardEmail.get_by_pair (s : Store) (gid : Nat) (we : String) : Option ForwardEmail :=
  s.forward_emails.find? (fun fe => fe.gen_email_id == gid && fe.website_email == we)

/-- ForwardEmail.get_by(reply_email=...). -/
def ForwardEmail.get_by_reply (s : Store) (re : String) : Option ForwardEmail :=
  s.forward_emails.find? (fun fe => fe.reply_email == re)

/-- CustomDomain.get_by(domain=...). -/
def CustomDomain.get_by_domain (s : Store) (d : String) : Option CustomDomain :=
  s.custom_domains.find? (fun cd => cd.domain == d)

/-- Directory.get_by(name=...). -/
def Directory.get_by_name (s : Store) (n : String) : Option Directory :=
  s.directories.find? (fun d => d.name == n)

/-- In-place mutation of the first row matching a predicate, as the ORM update
of a fetched row object. -/
def updateFirst (p : α → Bool) (f : α → α) : List α → List α
  | [] => []
  | x :: xs => if p x then f x :: xs else x :: updateFirst p f xs

/-- The bounded token-generation loop of src/email_handler.py lines 227-230
(same pattern in src/app/dashboard/views/alias_detail.py lines 154-157):
for each of fuel iterations bind the candidate and break when it is unused;
when every iteration finds its candidate used, the loop ends with the last
candidate still bound. -/
def tokenSearch (is_used : String → Bool) (cand : Nat → String) : Nat → Nat → String
  | i, 0 => cand i
  | i, 1 => cand i
  | i, fuel + 2 => if is_used (cand i) then tokenSearch is_used cand (i + 1) (fuel + 1) else cand i

/-- reply_email generation of handle_forward. random_string of app/utils.py is
not part of the provided sources; it is modelled as an oracle rand giving the
string sampled at each attempt. -/
def generate_reply_email (cfg : Config) (s : Store) (rand : Nat → String) : String :=
  tokenSearch (fun t => (ForwardEmail.get_by_reply s t).isSome)
    (fun i => "reply+" ++ rand i ++ "@" ++ cfg.EMAIL_DOMAIN) 0 1000

/-- Lines 202-205 and 317-320: the delivery mailbox of an alias. -/
def mailbox_email_of (s : Store) (g : GenEmail) : String :=
  match g.mailbox_email with
  | some m => m
  | none => (s.users g.user_id).email

/-- Lines 131-166: on-the-fly creation of a directory alias. Returns the new
store, the created alias if any, and the notifications sent. The enabled
default of a created alias is modelled from the spec lifecycle (a fresh alias
is active). -/
def try_create_directory_alias (cfg : Config) (s : Store) (aliasAddr : String) :
    Store × Option GenEmail × List Notice :=
  if email_belongs_to_alias_domains cfg aliasAddr then
    if aliasAddr.toList.contains '/' || aliasAddr.toList.contains '+' || aliasAddr.toList.contains '#' then
      let sep : Char := if aliasAddr.toList.contains '/' then '/'
        else if aliasAddr.toList.contains '+' then '+' else '#'
      let directory_name := beforeFirst aliasAddr sep
      match Directory.get_by_name s directory_name with
      | some directory =>
        let dir_user := s.users directory.user_id
        if dir_user.can_create_new_alias then
          let g : GenEmail :=
            { id := s.next_gen_id, email := aliasAddr, user_id := directory.user_id,
              enabled := true, mailbox_email := none, directory_id := some directory.id }
          ({ s with gen_emails := s.gen_emails ++ [g], next_gen_id := s.next_gen_id + 1 },
           some g, [])
        else
          (s, none, [Notice.cannot_create_directory_alias dir_user.email aliasAddr directory_name])
      | none => (s, none, [])
    else (s, none, [])
  else (s, none, [])

/-- Lines 170-196: on-the-fly creation of a catch-all custom-domain alias. -/
def try_create_catch_all_alias (_cfg : Config) (s : Store) (aliasAddr : String) :
    Store × Option GenEmail × List Notice :=
  let alias_domain := get_email_domain_part aliasAddr
  match CustomDomain.get_by_domain s alias_domain with
  | some custom_domain =>
    if custom_domain.catch_all then
      let domain_user := s.users custom_domain.user_id
      if domain_user.can_create_new_alias then
        let g : GenEmail :=
          { id := s.next_gen_id, email := aliasAddr, user_id := custom_domain.user_id,
            enabled := true, mailbox_email := none,
            custom_domain_id := some custom_domain.id, automatic_creation := true }
        ({ s with gen_emails := s.gen_emails ++ [g], next_gen_id := s.next_gen_id + 1 },
         some g, [])
      else
        (s, none, [Notice.cannot_create_domain_alias domain_user.email aliasAddr alias_domain])
    else (s, none, [])
  | none => (s, none, [])

/-- Lines 209-238: fetch the mapping for (alias, correspondent); update its
stored From value when it differs; otherwise create it with a fresh reply
token. -/
def get_or_create_forward_email (cfg : Config) (s : Store) (gid : Nat)
    (website_email website_from : String) (rand : Nat → String) : Store × ForwardEmail :=
  match ForwardEmail.get_by_pair s gid website_email with
  | some forward_email =>
    if forward_email.website_from != website_from then
      ({ s with forward_emails :=
           (updateFirst (fun fe => fe.gen_email_id == gid && fe.website_email == website_email)
             (fun fe => { fe with website_from := website_from }) s.forward_emails) },
       { forward_email with website_from := website_from })
    else (s, forward_email)
  | none =>
    let reply_email := generate_reply_email cfg s rand
    let fe : ForwardEmail :=
      { id := s.next_fe_id, gen_email_id := gid, website_email := website_email,
        website_from := website_from, reply_email := reply_email }
    ({ s with forward_emails := s.forward_emails ++ [fe], next_fe_id := s.next_fe_id + 1 }, fe)

/-- Lines 202-293 of handle_forward, from the point where the alias is
resolved. Only mail_options and rcpt_options of the envelope are read past
this point. -/
def forward_resolved (cfg : Config) (s : Store) (mail_options rcpt_options : List String)
    (msg : Msg) (rand : Nat → String) (gen_email : GenEmail) (notices : List Notice) :
    Except Fault Outcome :=
  let mailbox_email := mailbox_email_of s gen_email
  match msg.get "From" with
  | none => Except.error Fault.type_error
  | some from_header_val =>
    let website_email := get_email_part from_header_val
    let sfe := get_or_create_forward_email cfg s gen_email.id website_email from_header_val rand
    let s2 := sfe.1
    let forward_email := sfe.2
    let forward_log : ForwardEmailLog :=
      { id := s2.next_log_id, forward_id := forward_email.id, is_reply := false, blocked := false }
    if gen_email.enabled then
      let msg1 := add_or_replace_header msg "X-SimpleLogin-Type" "Forward"
      let msg2 := delete_header msg1 "Reply-To"
      let name := get_email_name from_header_val
      let from_header := name ++ (if name == "" then "" else " - ") ++
        str_replace website_email "@" " at " ++ " <" ++ forward_email.reply_email ++ ">"
      match msg2.replace_header "From" from_header with
      | none => Except.error (Fault.key_error "From")
      | some msg3 =>
        let unsubscribe_link := cfg.URL ++ "/dashboard/unsubscribe/" ++ toString gen_email.id
        let msg4 := add_or_replace_header msg3 "List-Unsubscribe" ("<" ++ unsubscribe_link ++ ">")
        let msg5 := add_or_replace_header msg4 "List-Unsubscribe-Post" "List-Unsubscribe=One-Click"
        let msg6 := add_dkim_signature msg5 cfg.EMAIL_DOMAIN
        let msg_raw := msg6.as_string
        let s3 := { s2 with
          forward_email_logs := s2.forward_email_logs ++ [forward_log],
          next_log_id := s2.next_log_id + 1 }
        Except.ok
          { status := "250 Message accepted for delivery", store := s3,
            sent := [{ from_addr := forward_email.reply_email, to_addr := mailbox_email,
                       raw := msg_raw, mail_options := mail_options, rcpt_options := rcpt_options }],
            notices := notices, msg := msg6 }
    else
      let s3 := { s2 with
        forward_email_logs := s2.forward_email_logs ++ [{ forward_log with blocked := true }],
        next_log_id := s2.next_log_id + 1 }
      Except.ok
        { status := "250 Message accepted for delivery", store := s3, sent := [],
          notices := notices, msg := msg }

/-- MailHandler.handle_forward (lines 118-293). -/
def handle_forward (cfg : Config) (s : Store) (env : Envelope) (msg : Msg)
    (rand : Nat → String) : Except Fault Outcome :=
  match env.rcpt_tos with
  | [] => Except.error Fault.index_error
  | r :: _ =>
    let aliasAddr := str_toLower r
    match GenEmail.get_by_email s aliasAddr with
    | some gen_email => forward_resolved cfg s env.mail_options env.rcpt_options msg rand gen_email []
    | none =>
      let d := try_create_directory_alias cfg s aliasAddr
      match d.2.1 with
      | some g => forward_resolved cfg d.1 env.mail_options env.rcpt_options msg rand g d.2.2
      | none =>
        let c := try_create_catch_all_alias cfg d.1 aliasAddr
        match c.2.1 with
        | some g => forward_resolved cfg c.1 env.mail_options env.rcpt_options msg rand g (d.2.2 ++ c.2.2)
        | none =>
          Except.ok
            { status := "510 Email not exist", store := c.1, sent := [],
              notices := d.2.2 ++ c.2.2, msg := msg }

/-- Lines 316-419 of handle_reply, from the point where the mapping and alias
are resolved and the alias domain was validated. Only mail_from, mail_options
and rcpt_options of the envelope are read past this point. -/
def handle_reply_resolved (cfg : Config) (s : Store) (mail_from : String)
    (mail_options rcpt_options : List String) (msg : Msg) (reply_email : String)
    (forward_email : ForwardEmail) (gen_email : GenEmail) : Except Fault Outcome :=
  let aliasAddr := gen_email.email
  let alias_domain := get_email_domain_part aliasAddr
  let mailbox_email := mailbox_email_of s gen_email
  if str_toLower mail_from != str_toLower mailbox_email then
    Except.ok
      { status := "550 ignored", store := s, sent := [],
        notices := [Notice.reply_must_use_personal_email mailbox_email aliasAddr mail_from,
                    Notice.sender_not_allowed mail_from reply_email],
        msg := msg }
  else
    let msg1 := delete_header msg "DKIM-Signature"
    match msg1.replace_header "From" aliasAddr with
    | none => Except.error (Fault.key_error "From")
    | some msg2 =>
      let msg3 := delete_header msg2 "Reply-To"
      match msg3.replace_header "To" forward_email.website_email with
      | none => Except.error (Fault.key_error "To")
      | some msg4 =>
        let unsubscribe_link := cfg.URL ++ "/dashboard/unsubscribe/" ++ toString forward_email.gen_email_id
        let msg5 := add_or_replace_header msg4 "List-Unsubscribe" ("<" ++ unsubscribe_link ++ ">")
        let msg6 := add_or_replace_header msg5 "List-Unsubscribe-Post" "List-Unsubscribe=One-Click"
        let msg7 := delete_header msg6 "Received-SPF"
        match (if cfg.ALIAS_DOMAINS.contains alias_domain then
                 Except.ok (add_dkim_signature msg7 alias_domain)
               else
                 match CustomDomain.get_by_domain s alias_domain with
                 | none => Except.error Fault.none_dkim_verified
                 | some custom_domain =>
                   Except.ok (if custom_domain.dkim_verified then add_dkim_signature msg7 alias_domain
                              else msg7)) with
        | Except.error e => Except.error e
        | Except.ok msg8 =>
          let msg_raw := msg8.as_string
          let _ := str_replace msg_raw reply_email aliasAddr
          let s2 := { s with
            forward_email_logs := s.forward_email_logs ++
              [{ id := s.next_log_id, forward_id := forward_email.id, is_reply := true, blocked := false }],
            next_log_id := s.next_log_id + 1 }
          Except.ok
            { status := "250 Message accepted for delivery", store := s2,
              sent := [{ from_addr := aliasAddr, to_addr := forward_email.website_email,
                         raw := msg_raw, mail_options := mail_options, rcpt_options := rcpt_options }],
              notices := [], msg := msg8 }

/-- MailHandler.handle_reply (lines 295-419). -/
def handle_reply (cfg : Config) (s : Store) (env : Envelope) (msg : Msg) :
    Except Fault Outcome :=
  match env.rcpt_tos with
  | [] => Except.error Fault.index_error
  | r :: _ =>
    let reply_email := str_toLower r
    if !(str_endsWith reply_email cfg.EMAIL_DOMAIN) then
      Except.ok { status := "550 wrong reply email", store := s, sent := [], notices := [], msg := msg }
    else
      match ForwardEmail.get_by_reply s reply_email with
      | none =>
        Except.ok { status := "550 wrong reply email", store := s, sent := [], notices := [], msg := msg }
      | some forward_email =>
        match GenEmail.get_by_id s forward_email.gen_email_id with
        | none => Except.error Fault.missing_relation
        | some gen_email =>
          let aliasAddr := gen_email.email
          let alias_domain := get_email_domain_part aliasAddr
          if !(email_belongs_to_alias_domains cfg aliasAddr) &&
             (CustomDomain.get_by_domain s alias_domain).isNone then
            Except.ok { status := "550 alias unknown by SimpleLogin", store := s, sent := [],
                        notices := [], msg := msg }
          else
            handle_reply_resolved cfg s env.mail_from env.mail_options env.rcpt_options msg
              reply_email forward_email gen_email

/-- MailHandler.handle_DATA (lines 86-116): classify by the first recipient
address and dispatch to the reply or forward pipeline. -/
def handle_DATA (cfg : Config) (s : Store) (env : Envelope) (msg : Msg)
    (rand : Nat → String) : Except Fault Outcome :=
  match env.rcpt_tos with
  | [] => Except.error Fault.index_error
  | r :: _ =>
    let rcpt_to := str_toLower r
    if str_startsWith rcpt_to "reply+" || str_startsWith rcpt_to "ra+" then
      handle_reply cfg s env msg
    else
      handle_forward cfg s env msg rand

/-! Derived observation helpers and invariants. -/

/-- Status of a handler result, when it did not raise. -/
def status_of : Except Fault Outcome → Option String
  | .ok o => some o.status
  | .error _ => none

/-- Transport calls of a handler result. -/
def sent_of : Except Fault Outcome → List SentMail
  | .ok o => o.sent
  | .error _ => []

/-- Database state of a handler result, when it did not raise. -/
def store_of : Except Fault Outcome → Option Store
  | .ok o => some o.store
  | .error _ => none

/-- The (alias id, correspondent address) keys of the mapping table. -/
def pair_keys (s : Store) : List (Nat × String) :=
  s.forward_emails.map (fun fe => (fe.gen_email_id, fe.website_email))

/-- At most one mapping per (alias id, correspondent address) pair. -/
def mapping_unique (s : Store) : Prop :=
  (pair_keys s).Nodup

/-- Every stored reply token lives under the service domain; this holds for
every token the code creates, since both creation sites build
reply+random@EMAIL_DOMAIN or ra+random@EMAIL_DOMAIN. -/
def reply_tokens_in_domain (cfg : Config) (s : Store) : Prop :=
  ∀ fe ∈ s.forward_emails, get_email_domain_part fe.reply_email = cfg.EMAIL_DOMAIN

/-! Concrete scenarios used by the witness theorems. -/

/-- A user owning the concrete aliases below. -/
def wUser : User :=
  { id := 1, email := "owner@mail.com", name := "Owner", can_create_new_alias := true }

/-- Service configuration of the concrete scenarios. -/
def wCfg : Config :=
  { EMAIL_DOMAIN := "sl.co", ALIAS_DOMAINS := ["sl.co"], URL := "https://app.sl" }

/-- A store with one enabled alias hello@sl.co and one mapping for the
correspondent boss@biz.example with reply token reply+tok@sl.co. -/
def wStore : Store :=
  { users := fun _ => wUser,
    gen_emails := [{ id := 1, email := "hello@sl.co", user_id := 1, enabled := true,
                     mailbox_email := none }],
    forward_emails := [{ id := 1, gen_email_id := 1, website_email := "boss@biz.example",
                         website_from := "Boss <boss@biz.example>",
                         reply_email := "reply+tok@sl.co" }],
    forward_email_logs := [], custom_domains := [], directories := [],
    next_gen_id := 2, next_fe_id := 2, next_log_id := 1 }

/-- A reply message whose body quotes the reply-token address. -/
def wMsgReply : Msg :=
  { headers := [("From", "owner@mail.com"), ("To", "reply+tok@sl.co"), ("Subject", "hi")],
    body := "On Mon boss wrote via reply+tok@sl.co\nbye" }

/-- A forward message from the correspondent already recorded in wStore. -/
def wMsgFwd : Msg :=
  { headers := [("From", "Boss <boss@biz.example>"), ("To", "hello@sl.co")], body := "m1" }

/-- The same store with the alias disabled. -/
def wStoreDisabled : Store :=
  { wStore with
    gen_emails := [{ id := 1, email := "hello@sl.co", user_id := 1, enabled := false,
                     mailbox_email := none }] }

/-- A store whose only stored reply token is reply+t@sl.co, so that with the
constant oracle every generation attempt collides. -/
def wStoreTok : Store :=
  { wStore with
    forward_emails := [{ id := 1, gen_email_id := 1, website_email := "boss@biz.example",
                         website_from := "Boss", reply_email := "reply+t@sl.co" }] }

/-- A forward message from a correspondent with no mapping yet. -/
def wMsgTok : Msg :=
  { headers := [("From", "n@biz2.example")], body := "b" }

/-- Configuration and store of the Header scenario of the spec: alias
x@relay.example, correspondent jane@biz.example, reply token
abcd1234@relay.example. -/
def wCfgJane : Config :=
  { EMAIL_DOMAIN := "relay.example", ALIAS_DOMAINS := ["relay.example"], URL := "https://app.sl" }

/-- Store of the Header scenario. -/
def wStoreJane : Store :=
  { users := fun _ => wUser,
    gen_emails := [{ id := 1, email := "x@relay.example", user_id := 1, enabled := true,
                     mailbox_email := none }],
    forward_emails := [{ id := 1, gen_email_id := 1, website_email := "jane@biz.example",
                         website_from := "old", reply_email := "abcd1234@relay.example" }],
    forward_email_logs := [], custom_domains := [], directories := [],
    next_gen_id := 2, next_fe_id := 2, next_log_id := 1 }

/-- The Header scenario message. -/
def wMsgJane : Msg :=
  { headers := [("From", "\"Jane Doe\" <jane@biz.example>"), ("To", "x@relay.example")],
    body := "b" }

/-- Second forward message of the two-run scenario: same correspondent
address, different display form. -/
def wMsgFwd2 : Msg :=
  { headers := [("From", "\"The Boss\" <boss2@biz.example>"), ("To", "hello@sl.co")], body := "m2" }

/-- First forward message of the two-run scenario (correspondent
boss2@biz.example has no mapping in wStore). -/
def wMsgFwd1 : Msg :=
  { headers := [("From", "Boss2 <boss2@biz.example>"), ("To", "hello@sl.co")], body := "m1" }

/-- The alias row stored in wStore. -/
def wGen : GenEmail :=
  { id := 1, email := "hello@sl.co", user_id := 1, enabled := true, mailbox_email := none }

/-- The mapping row stored in wStore. -/
def wFe : ForwardEmail :=
  { id := 1, gen_email_id := 1, website_email := "boss@biz.example",
    website_from := "Boss <boss@biz.example>", reply_email := "reply+tok@sl.co" }

/-- The alias and mapping rows of the Header scenario store. -/
def wGenJane : GenEmail :=
  { id := 1, email := "x@relay.example", user_id := 1, enabled := true, mailbox_email := none }

/-- The mapping row of the Header scenario store. -/
def wFeJane : ForwardEmail :=
  { id := 1, gen_email_id := 1, website_email := "jane@biz.example",
    website_from := "old", reply_email := "abcd1234@relay.example" }

/-! Helper lemmas about the header operations. -/

/-- A header key present in a message stays present after filtering out a
differently named header. -/
theorem any_key_filter_ne {hs : List (String × String)} {k k2 : String}
    (h : hs.any (fun p => header_key_eq p.1 k) = true)
    (hne : (str_toLower k == str_toLower k2) = false) :
    (hs.filter (fun p => !header_key_eq p.1 k2)).any (fun p => header_key_eq p.1 k) = true := by
  rcases List.any_eq_true.mp h with ⟨p, hmem, hp⟩
  refine List.any_eq_true.mpr ⟨p, List.mem_filter.mpr ⟨hmem, ?_⟩, hp⟩
  unfold header_key_eq at hp ⊢
  have h1 : str_toLower p.1 = str_toLower k := by simpa using hp
  simp [h1, hne]

/-- A message with some header under key k yields a successful
replaceFirstHeader for k. -/
theorem replaceFirstHeader_some_of_any {k v : String} :
    ∀ {hs : List (String × String)}, hs.any (fun p => header_key_eq p.1 k) = true →
      ∃ hs2, replaceFirstHeader k v hs = some hs2 := by
  intro hs
  induction hs with
  | nil => intro h; simp at h
  | cons p rest ih =>
    intro h
    by_cases hp : header_key_eq p.1 k = true
    · exact ⟨(p.1, v) :: rest, by simp [replaceFirstHeader, hp]⟩
    · have hb : header_key_eq p.1 k = false := by
        cases hc : header_key_eq p.1 k
        · rfl
        · exact absurd hc hp
      have hr : rest.any (fun p => header_key_eq p.1 k) = true := by
        simpa [List.any_cons, hb] using h
      rcases ih hr with ⟨hs2, h2⟩
      exact ⟨p :: hs2, by simp [replaceFirstHeader, hb, h2]⟩

/-- replaceFirstHeader does not change the header keys. -/
theorem replaceFirstHeader_fst {k v : String} :
    ∀ {hs hs2 : List (String × String)}, replaceFirstHeader k v hs = some hs2 →
      hs2.map Prod.fst = hs.map Prod.fst := by
  intro hs
  induction hs with
  | nil => intro hs2 h; simp [replaceFirstHeader] at h
  | cons p rest ih =>
    intro hs2 h
    by_cases hp : header_key_eq p.1 k = true
    · simp [replaceFirstHeader, hp] at h
      subst h
      simp
    · have hb : header_key_eq p.1 k = false := by
        cases hc : header_key_eq p.1 k
        · rfl
        · exact absurd hc hp
      simp only [replaceFirstHeader, hb] at h
      simp only [Bool.false_eq_true, if_false] at h
      cases hr : replaceFirstHeader k v rest with
      | none => rw [hr] at h; simp at h
      | some r2 =>
        rw [hr] at h
        simp at h
        subst h
        simp [ih hr]

/-- After a successful replaceFirstHeader for k, the first k header carries
the new value. -/
theorem find?_replaceFirstHeader {k v : String} :
    ∀ {hs hs2 : List (String × String)}, replaceFirstHeader k v hs = some hs2 →
      (hs2.find? (fun p => header_key_eq p.1 k)).map Prod.snd = some v := by
  intro hs
  induction hs with
  | nil => intro hs2 h; simp [replaceFirstHeader] at h
  | cons p rest ih =>
    intro hs2 h
    by_cases hp : header_key_eq p.1 k = true
    · simp [replaceFirstHeader, hp] at h
      subst h
      have hfind : List.find? (fun q : String × String => header_key_eq q.1 k) ((p.1, v) :: rest) =
          some (p.1, v) := List.find?_cons_of_pos rest hp
      rw [hfind]
      rfl
    · have hb : header_key_eq p.1 k = false := by
        cases hc : header_key_eq p.1 k
        · rfl
        · exact absurd hc hp
      simp only [replaceFirstHeader, hb, Bool.false_eq_true, if_false] at h
      cases hr : replaceFirstHeader k v rest with
      | none => rw [hr] at h; simp at h
      | some r2 =>
        rw [hr] at h
        simp at h
        subst h
        rw [List.find?_cons_of_neg _ (by simp [hb])]
        exact ih hr

/-- Key presence transfers along equal key lists. -/
theorem any_key_of_fst_eq {hs hs2 : List (String × String)} {k : String}
    (hfst : hs2.map Prod.fst = hs.map Prod.fst)
    (h : hs.any (fun p => header_key_eq p.1 k) = true) :
    hs2.any (fun p => header_key_eq p.1 k) = true := by
  have e : ∀ l : List (String × String),
      l.any (fun p => header_key_eq p.1 k) = (l.map Prod.fst).any (fun a => header_key_eq a k) := by
    intro l
    induction l with
    | nil => rfl
    | cons x xs ih => simp [List.any_cons, ih]
  rw [e, hfst, ← e]
  exact h

/-- Presence of a header key in a message, as produced by a successful get. -/
theorem any_key_of_get {m : Msg} {k v : String} (h : m.get k = some v) :
    m.headers.any (fun p => header_key_eq p.1 k) = true := by
  unfold Msg.get at h
  cases hf : m.headers.find? (fun p => header_key_eq p.1 k) with
  | none => rw [hf] at h; simp at h
  | some q =>
    have hq := List.find?_some hf
    exact List.any_eq_true.mpr ⟨q, List.mem_of_find?_eq_some hf, hq⟩

/-- When the alias passed the domain validation (its domain is one of the
service alias domains or a CustomDomain row exists for it), the signing step
of the resolved reply path cannot hit the absent-CustomDomain dereference. -/
theorem handle_reply_resolved_no_dkim_fault (cfg : Config) (s : Store) (mail_from : String)
    (mo ro : List String) (msg : Msg) (reply_email : String)
    (fe : ForwardEmail) (g : GenEmail)
    (h : email_belongs_to_alias_domains cfg g.email = true ∨
         (CustomDomain.get_by_domain s (get_email_domain_part g.email)).isSome = true) :
    handle_reply_resolved cfg s mail_from mo ro msg reply_email fe g ≠
      Except.error Fault.none_dkim_verified := by
  unfold handle_reply_resolved
  dsimp only
  split
  · simp
  · cases hrf : (delete_header msg "DKIM-Signature").replace_header "From" g.email with
    | none => simp [hrf]
    | some msg2 =>
      simp only [hrf]
      cases hrt : (delete_header msg2 "Reply-To").replace_header "To" fe.website_email with
      | none => simp [hrt]
      | some msg4 =>
        simp only [hrt]
        cases hcont : cfg.ALIAS_DOMAINS.contains (get_email_domain_part g.email) with
        | true => simp [hcont]
        | false =>
          have hsome : (CustomDomain.get_by_domain s (get_email_domain_part g.email)).isSome = true := by
            rcases h with h | h
            · rw [email_belongs_to_alias_domains] at h
              rw [h] at hcont
              exact absurd hcont (by simp)
            · exact h
          cases hcd : CustomDomain.get_by_domain s (get_email_domain_part g.email) with
          | none => rw [hcd] at hsome; simp at hsome
          | some cd => simp [hcont, hcd]

/-- C10: in the reply pipeline, the DKIM-signing branch taken when the alias
domain is not one of the service alias domains never dereferences an absent
CustomDomain row: handle_reply can never end in that fault, because the
domain validation earlier in the same invocation guarantees the row exists
and the store is unchanged in between. -/
theorem reply_signing_custom_domain_never_absent (cfg : Config) (s : Store)
    (env : Envelope) (msg : Msg) :
    handle_reply cfg s env msg ≠ Except.error Fault.none_dkim_verified := by
  unfold handle_reply
  cases env.rcpt_tos with
  | nil => simp
  | cons r rs =>
    dsimp only
    split
    · simp
    · cases hfe : ForwardEmail.get_by_reply s (str_toLower r) with
      | none => simp
      | some fe =>
        dsimp only
        cases hg : GenEmail.get_by_id s fe.gen_email_id with
        | none => simp
        | some g =>
          dsimp only
          split
          · simp
          · rename_i hguard
            apply handle_reply_resolved_no_dkim_fault
            cases hb : email_belongs_to_alias_domains cfg g.email with
            | true => exact Or.inl rfl
            | false =>
              cases hcd : (CustomDomain.get_by_domain s (get_email_domain_part g.email)).isNone with
              | false =>
                refine Or.inr ?_
                cases hx : CustomDomain.get_by_domain s (get_email_domain_part g.email) with
                | none => rw [hx] at hcd; simp at hcd
                | some cd => simp
              | true => exact absurd (by rw [hb, hcd]; rfl) hguard

/-- C8: classification inspects only the first recipient address: a recipient
beginning with one of the two reserved reply prefixes is routed to the reply
pipeline, anything else to the forward pipeline, and both prefixes reach the
same reply handler applied to the same arguments. -/
theorem handle_DATA_classified_by_recipient_token
    (cfg : Config) (s : Store) (mf r : String) (rs mo ro : List String) (msg : Msg)
    (rand : Nat → String) :
    ((str_startsWith (str_toLower r) "reply+" || str_startsWith (str_toLower r) "ra+") = true →
      handle_DATA cfg s ⟨mf, r :: rs, mo, ro⟩ msg rand = handle_reply cfg s ⟨mf, r :: rs, mo, ro⟩ msg) ∧
    ((str_startsWith (str_toLower r) "reply+" || str_startsWith (str_toLower r) "ra+") = false →
      handle_DATA cfg s ⟨mf, r :: rs, mo, ro⟩ msg rand =
        handle_forward cfg s ⟨mf, r :: rs, mo, ro⟩ msg rand) := by
  constructor
  · intro h
    unfold handle_DATA
    simp [h]
  · intro h
    unfold handle_DATA
    simp [h]

/-- C9 (amended): the engine does not require exactly one recipient; it reads
only the first recipient address, so an envelope with further recipients is
processed exactly as if it held only its first recipient. -/
theorem handle_DATA_ignores_recipients_after_first
    (cfg : Config) (s : Store) (mf r : String) (rs mo ro : List String) (msg : Msg)
    (rand : Nat → String) :
    handle_DATA cfg s ⟨mf, r :: rs, mo, ro⟩ msg rand =
      handle_DATA cfg s ⟨mf, [r], mo, ro⟩ msg rand := rfl

/-- C9 (counterexample): a concrete envelope carrying two recipients is
processed exactly as the envelope carrying only its first recipient — the
engine does not require exactly one recipient, it silently ignores the
second one: the run succeeds and the only transport call delivers the first
recipient's alias to its mailbox. -/
theorem two_recipient_envelope_same_as_first_only :
    handle_DATA wCfg wStore
        ⟨"boss@biz.example", ["hello@sl.co", "second@else.example"], [], []⟩ wMsgFwd
        (fun _ => "r0") =
      handle_DATA wCfg wStore ⟨"boss@biz.example", ["hello@sl.co"], [], []⟩ wMsgFwd
        (fun _ => "r0") ∧
    status_of (handle_DATA wCfg wStore
        ⟨"boss@biz.example", ["hello@sl.co", "second@else.example"], [], []⟩ wMsgFwd
        (fun _ => "r0")) = some "250 Message accepted for delivery" ∧
    (sent_of (handle_DATA wCfg wStore
        ⟨"boss@biz.example", ["hello@sl.co", "second@else.example"], [], []⟩ wMsgFwd
        (fun _ => "r0"))).map (fun m => m.to_addr) = ["owner@mail.com"] :=
  ⟨rfl, rfl, rfl⟩

set_option maxRecDepth 100000

/-- C2: the textual replacement of the reply-token address is lost (the
source discards the value returned by bytes.replace), so the serialized
message handed to the transport still contains the reply-token address
whenever the message body quotes it: at this concrete input the reply is
accepted and transported with the token literally present in the raw bytes. -/
theorem reply_raw_still_contains_reply_token :
    status_of (handle_reply wCfg wStore ⟨"owner@mail.com", ["reply+tok@sl.co"], [], []⟩ wMsgReply) =
      some "250 Message accepted for delivery" ∧
    (sent_of (handle_reply wCfg wStore ⟨"owner@mail.com", ["reply+tok@sl.co"], [], []⟩ wMsgReply)).map
        (fun m => contains_substr m.raw "reply+tok@sl.co") = [true] :=
  ⟨rfl, rfl⟩

/-- C7: when all bounded token-generation attempts collide (constant random
oracle, the single candidate already stored), handle_forward does not surface
an internal fault: it accepts the message and creates the mapping with the
colliding token, leaving two mappings with the same reply token in the store. -/
theorem token_exhaustion_creates_colliding_mapping :
    status_of (handle_forward wCfg wStoreTok ⟨"n@biz2.example", ["hello@sl.co"], [], []⟩ wMsgTok
        (fun _ => "t")) = some "250 Message accepted for delivery" ∧
    (store_of (handle_forward wCfg wStoreTok ⟨"n@biz2.example", ["hello@sl.co"], [], []⟩ wMsgTok
        (fun _ => "t"))).map
        (fun st => (st.forward_emails.filter (fun fe => fe.reply_email == "reply+t@sl.co")).length) =
      some 2 :=
  ⟨rfl, rfl⟩

/-- C6: a reply whose recipient has a domain other than the service domain,
or whose recipient matches no stored reply token, is rejected permanently
with no side effects: unchanged store, no transport call, no notification,
untouched message. Uses the store invariant that every stored reply token
lives under the service domain, which both creation sites guarantee. -/
theorem reply_unknown_token_rejected_without_side_effects
    (cfg : Config) (s : Store) (mf r : String) (rs mo ro : List String) (msg : Msg)
    (hinv : reply_tokens_in_domain cfg s)
    (h : get_email_domain_part (str_toLower r) ≠ cfg.EMAIL_DOMAIN ∨
         ForwardEmail.get_by_reply s (str_toLower r) = none) :
    handle_reply cfg s ⟨mf, r :: rs, mo, ro⟩ msg =
      Except.ok { status := "550 wrong reply email", store := s, sent := [], notices := [],
                  msg := msg } := by
  have hnone : ForwardEmail.get_by_reply s (str_toLower r) = none := by
    rcases h with h | h
    · cases hfe : ForwardEmail.get_by_reply s (str_toLower r) with
      | none => rfl
      | some fe =>
        exfalso
        have hmem := List.mem_of_find?_eq_some hfe
        have hp := List.find?_some hfe
        have heq : fe.reply_email = str_toLower r := by simpa using hp
        have hd := hinv fe hmem
        rw [heq] at hd
        exact h hd
    · exact h
  unfold handle_reply
  dsimp only
  cases hend : str_endsWith (str_toLower r) cfg.EMAIL_DOMAIN with
  | false => simp [hend]
  | true => simp [hend, hnone]

/-- Witness for C6 at a concrete unknown reply token. -/
theorem reply_unknown_token_rejected_witness :
    reply_tokens_in_domain wCfg wStore ∧
    (get_email_domain_part (str_toLower "reply+zz@sl.co") ≠ wCfg.EMAIL_DOMAIN ∨
     ForwardEmail.get_by_reply wStore (str_toLower "reply+zz@sl.co") = none) ∧
    handle_reply wCfg wStore ⟨"owner@mail.com", ["reply+zz@sl.co"], [], []⟩ wMsgReply =
      Except.ok { status := "550 wrong reply email", store := wStore, sent := [], notices := [],
                  msg := wMsgReply } :=
  ⟨by unfold reply_tokens_in_domain; decide, by decide,
   reply_unknown_token_rejected_without_side_effects wCfg wStore "owner@mail.com"
     "reply+zz@sl.co" [] [] [] wMsgReply (by unfold reply_tokens_in_domain; decide) (by decide)⟩

/-- Inside a filtered header list, searching for a differently named key finds
the same header as in the unfiltered list. -/
theorem find?_key_filter_ne {hs : List (String × String)} {k k2 : String}
    (hne : (str_toLower k == str_toLower k2) = false) :
    (hs.filter (fun p => !header_key_eq p.1 k2)).find? (fun p => header_key_eq p.1 k) =
      hs.find? (fun p => header_key_eq p.1 k) := by
  induction hs with
  | nil => rfl
  | cons p rest ih =>
    by_cases h2 : header_key_eq p.1 k2 = true
    · have hk : header_key_eq p.1 k = false := by
        unfold header_key_eq at h2 ⊢
        have he2 : str_toLower p.1 = str_toLower k2 := by simpa using h2
        cases hc : (str_toLower p.1 == str_toLower k) with
        | false => rfl
        | true =>
          exfalso
          have he1 : str_toLower p.1 = str_toLower k := by simpa using hc
          rw [he2] at he1
          rw [← he1] at hne
          simp at hne
      simp [List.filter_cons, h2, List.find?_cons, hk, ih]
    · have h2f : header_key_eq p.1 k2 = false := by
        cases hc : header_key_eq p.1 k2
        · rfl
        · exact absurd hc h2
      by_cases hk : header_key_eq p.1 k = true
      · simp [List.filter_cons, h2f, List.find?_cons, hk]
      · have hkf : header_key_eq p.1 k = false := by
          cases hc : header_key_eq p.1 k
          · rfl
          · exact absurd hc hk
        simp [List.filter_cons, h2f, List.find?_cons, hkf, ih]

/-- Upserting one header leaves the lookup of a differently named header
unchanged. -/
theorem get_add_or_replace_ne (m : Msg) (k k2 v : String)
    (hne : (str_toLower k == str_toLower k2) = false) :
    (add_or_replace_header m k2 v).get k = m.get k := by
  unfold add_or_replace_header Msg.get
  dsimp only
  rw [List.find?_append]
  rw [find?_key_filter_ne hne]
  have hsingle : List.find? (fun p : String × String => header_key_eq p.1 k) [(k2, v)] = none := by
    have hkk : header_key_eq k2 k = false := by
      unfold header_key_eq
      cases hc : (str_toLower k2 == str_toLower k) with
      | false => rfl
      | true =>
        exfalso
        have he : str_toLower k2 = str_toLower k := by simpa using hc
        rw [he] at hne
        simp at hne
    simp [List.find?_cons, hkk]
  rw [hsingle]
  cases hf : m.headers.find? (fun p => header_key_eq p.1 k) <;> rfl

/-- Deleting one header leaves the lookup of a differently named header
unchanged. -/
theorem get_delete_header_ne (m : Msg) (k k2 : String)
    (hne : (str_toLower k == str_toLower k2) = false) :
    (delete_header m k2).get k = m.get k := by
  unfold delete_header Msg.get
  dsimp only
  rw [find?_key_filter_ne hne]

/-- C1: for a reply whose mapping and alias resolve, the envelope sender is
compared case-insensitively against the authorized sender (explicit mailbox
of the alias, else the owning user address). On mismatch the pipeline stops
with "550 ignored", sends exactly the two notifications (to the mailbox owner
and to the unauthorized sender), leaves the store and the message untouched
and makes no transport call; on match it proceeds through the header
transform to the transport call. -/
theorem reply_sender_authorization
    (cfg : Config) (s : Store) (mf r : String) (rs mo ro : List String) (msg : Msg)
    (fe : ForwardEmail) (g : GenEmail)
    (hend : str_endsWith (str_toLower r) cfg.EMAIL_DOMAIN = true)
    (hfe : ForwardEmail.get_by_reply s (str_toLower r) = some fe)
    (hg : GenEmail.get_by_id s fe.gen_email_id = some g)
    (hvalid : ((!email_belongs_to_alias_domains cfg g.email) &&
               (CustomDomain.get_by_domain s (get_email_domain_part g.email)).isNone) = false)
    (hFrom : msg.headers.any (fun p => header_key_eq p.1 "From") = true)
    (hTo : msg.headers.any (fun p => header_key_eq p.1 "To") = true) :
    (str_toLower mf ≠ str_toLower (mailbox_email_of s g) →
      handle_reply cfg s ⟨mf, r :: rs, mo, ro⟩ msg =
        Except.ok { status := "550 ignored", store := s, sent := [],
                    notices := [Notice.reply_must_use_personal_email (mailbox_email_of s g) g.email mf,
                                Notice.sender_not_allowed mf (str_toLower r)],
                    msg := msg }) ∧
    (str_toLower mf = str_toLower (mailbox_email_of s g) →
      ∃ o, handle_reply cfg s ⟨mf, r :: rs, mo, ro⟩ msg = Except.ok o ∧
        o.status = "250 Message accepted for delivery" ∧ o.sent.length = 1) := by
  have hred : handle_reply cfg s ⟨mf, r :: rs, mo, ro⟩ msg =
      handle_reply_resolved cfg s mf mo ro msg (str_toLower r) fe g := by
    unfold handle_reply
    dsimp only
    simp [hend, hfe, hg, hvalid]
  constructor
  · intro hne
    rw [hred]
    unfold handle_reply_resolved
    have hb : (str_toLower mf != str_toLower (mailbox_email_of s g)) = true := by
      simpa using hne
    simp [hb]
  · intro heq
    rw [hred]
    unfold handle_reply_resolved
    have hb : (str_toLower mf != str_toLower (mailbox_email_of s g)) = false := by
      simpa using heq
    simp only [hb, Bool.false_eq_true, if_false]
    have h1 : (delete_header msg "DKIM-Signature").headers.any
        (fun p => header_key_eq p.1 "From") = true := by
      unfold delete_header
      exact any_key_filter_ne hFrom (by decide)
    obtain ⟨hs2, hrep⟩ := replaceFirstHeader_some_of_any (v := g.email) h1
    have hm2 : (delete_header msg "DKIM-Signature").replace_header "From" g.email =
        some { delete_header msg "DKIM-Signature" with headers := hs2 } := by
      unfold Msg.replace_header
      rw [hrep]
      rfl
    have hTo1 : (delete_header msg "DKIM-Signature").headers.any
        (fun p => header_key_eq p.1 "To") = true := by
      unfold delete_header
      exact any_key_filter_ne hTo (by decide)
    have hTo2 : hs2.any (fun p => header_key_eq p.1 "To") = true :=
      any_key_of_fst_eq (replaceFirstHeader_fst hrep) hTo1
    have hTo3 : (delete_header { delete_header msg "DKIM-Signature" with headers := hs2 }
        "Reply-To").headers.any (fun p => header_key_eq p.1 "To") = true := by
      unfold delete_header
      exact any_key_filter_ne hTo2 (by decide)
    obtain ⟨hs4, hrep2⟩ := replaceFirstHeader_some_of_any (v := fe.website_email) hTo3
    have hm4 : (delete_header { delete_header msg "DKIM-Signature" with headers := hs2 }
        "Reply-To").replace_header "To" fe.website_email =
        some { delete_header { delete_header msg "DKIM-Signature" with headers := hs2 }
               "Reply-To" with headers := hs4 } := by
      unfold Msg.replace_header
      rw [hrep2]
      rfl
    rw [hm2]
    dsimp only
    rw [hm4]
    dsimp only
    cases hcont : cfg.ALIAS_DOMAINS.contains (get_email_domain_part g.email) with
    | true =>
      simp only [hcont]
      exact ⟨_, rfl, rfl, rfl⟩
    | false =>
      have hsome : (CustomDomain.get_by_domain s (get_email_domain_part g.email)).isNone = false := by
        rw [email_belongs_to_alias_domains] at hvalid
        rw [hcont] at hvalid
        simpa using hvalid
      cases hcd : CustomDomain.get_by_domain s (get_email_domain_part g.email) with
      | none => rw [hcd] at hsome; simp at hsome
      | some cd =>
        simp only [hcont, hcd]
        exact ⟨_, rfl, rfl, rfl⟩

/-- Witness for C1: the unauthorized sender evil@other.com is rejected with
the two notifications, and the authorized owner address goes through to the
transport. -/
theorem reply_sender_authorization_witness :
    (handle_reply wCfg wStore ⟨"evil@other.com", ["reply+tok@sl.co"], [], []⟩ wMsgReply =
      Except.ok { status := "550 ignored", store := wStore, sent := [],
                  notices := [Notice.reply_must_use_personal_email
                                (mailbox_email_of wStore wGen) wGen.email "evil@other.com",
                              Notice.sender_not_allowed "evil@other.com"
                                (str_toLower "reply+tok@sl.co")],
                  msg := wMsgReply }) ∧
    (∃ o, handle_reply wCfg wStore ⟨"owner@mail.com", ["reply+tok@sl.co"], [], []⟩ wMsgReply =
        Except.ok o ∧ o.status = "250 Message accepted for delivery" ∧ o.sent.length = 1) :=
  ⟨(reply_sender_authorization wCfg wStore "evil@other.com" "reply+tok@sl.co" [] [] []
      wMsgReply wFe wGen (by decide) (by decide) (by decide) (by decide) (by decide)
      (by decide)).1 (by decide),
   (reply_sender_authorization wCfg wStore "owner@mail.com" "reply+tok@sl.co" [] [] []
      wMsgReply wFe wGen (by decide) (by decide) (by decide) (by decide) (by decide)
      (by decide)).2 (by decide)⟩

/-- The mapping get-or-create step never touches the activity log table. -/
theorem get_or_create_forward_email_logs (cfg : Config) (s : Store) (gid : Nat)
    (we wf : String) (rand : Nat → String) :
    (get_or_create_forward_email cfg s gid we wf rand).1.forward_email_logs =
      s.forward_email_logs := by
  unfold get_or_create_forward_email
  cases h : ForwardEmail.get_by_pair s gid we with
  | some fe =>
    dsimp only
    split
    · rfl
    · rfl
  | none => rfl

/-- The mapping get-or-create step never touches the alias table. -/
theorem get_or_create_forward_email_gens (cfg : Config) (s : Store) (gid : Nat)
    (we wf : String) (rand : Nat → String) :
    (get_or_create_forward_email cfg s gid we wf rand).1.gen_emails = s.gen_emails := by
  unfold get_or_create_forward_email
  cases h : ForwardEmail.get_by_pair s gid we with
  | some fe =>
    dsimp only
    split
    · rfl
    · rfl
  | none => rfl

/-- C4: a forward addressed to an existing but disabled alias is accepted
(status 250), performs no transport call, applies no header transformation,
and appends exactly one activity-log row, marked blocked. -/
theorem forward_disabled_blocked_no_transport
    (cfg : Config) (s : Store) (mf r : String) (rs mo ro : List String) (msg : Msg)
    (rand : Nat → String) (g : GenEmail) (f : String)
    (hA : GenEmail.get_by_email s (str_toLower r) = some g)
    (hdis : g.enabled = false)
    (hF : msg.get "From" = some f) :
    ∃ o l, handle_forward cfg s ⟨mf, r :: rs, mo, ro⟩ msg rand = Except.ok o ∧
      o.status = "250 Message accepted for delivery" ∧
      o.sent = [] ∧ o.notices = [] ∧ o.msg = msg ∧
      o.store.forward_email_logs = s.forward_email_logs ++ [l] ∧
      l.blocked = true ∧ l.is_reply = false := by
  unfold handle_forward
  dsimp only
  rw [hA]
  unfold forward_resolved
  dsimp only
  rw [hF, hdis]
  simp only [Bool.false_eq_true, if_false]
  refine ⟨_,
    { id := (get_or_create_forward_email cfg s g.id (get_email_part f) f rand).1.next_log_id,
      forward_id := (get_or_create_forward_email cfg s g.id (get_email_part f) f rand).2.id,
      is_reply := false, blocked := true },
    rfl, rfl, rfl, rfl, rfl, ?_, rfl, rfl⟩
  dsimp only
  rw [get_or_create_forward_email_logs]

/-- Witness for C4 at the concrete disabled alias. -/
theorem forward_disabled_blocked_witness :
    ∃ o l, handle_forward wCfg wStoreDisabled ⟨"boss@biz.example", ["hello@sl.co"], [], []⟩
        wMsgFwd (fun _ => "r0") = Except.ok o ∧
      o.status = "250 Message accepted for delivery" ∧
      o.sent = [] ∧ o.notices = [] ∧ o.msg = wMsgFwd ∧
      o.store.forward_email_logs = wStoreDisabled.forward_email_logs ++ [l] ∧
      l.blocked = true ∧ l.is_reply = false :=
  forward_disabled_blocked_no_transport wCfg wStoreDisabled "boss@biz.example" "hello@sl.co"
    [] [] [] wMsgFwd (fun _ => "r0")
    { id := 1, email := "hello@sl.co", user_id := 1, enabled := false, mailbox_email := none }
    "Boss <boss@biz.example>" (by decide) (by decide) (by decide)

/-- C5: when a forward through an enabled alias reaches the transform with a
From header parsing to a nonempty display name N and correspondent address C,
and the (alias, C) mapping with reply token T exists, the outbound From
header is exactly N, a dash, C with the at-sign defanged, and T in angle
brackets. -/
theorem forward_from_header_rewrite
    (cfg : Config) (s : Store) (mf r : String) (rs mo ro : List String) (msg : Msg)
    (rand : Nat → String) (g : GenEmail) (f N C : String) (fe : ForwardEmail)
    (hA : GenEmail.get_by_email s (str_toLower r) = some g)
    (hen : g.enabled = true)
    (hF : msg.get "From" = some f)
    (hname : get_email_name f = N)
    (hNne : (N == "") = false)
    (hpart : get_email_part f = C)
    (hfe : ForwardEmail.get_by_pair s g.id C = some fe) :
    ∃ o, handle_forward cfg s ⟨mf, r :: rs, mo, ro⟩ msg rand = Except.ok o ∧
      o.msg.get "From" =
        some (N ++ " - " ++ str_replace C "@" " at " ++ " <" ++ fe.reply_email ++ ">") ∧
      o.status = "250 Message accepted for delivery" := by
  have hFany := any_key_of_get hF
  have h1a : (add_or_replace_header msg "X-SimpleLogin-Type" "Forward").headers.any
      (fun p => header_key_eq p.1 "From") = true := by
    unfold add_or_replace_header
    dsimp only
    rw [List.any_append]
    rw [any_key_filter_ne hFany (by decide)]
    rfl
  have h1 : (delete_header (add_or_replace_header msg "X-SimpleLogin-Type" "Forward")
      "Reply-To").headers.any (fun p => header_key_eq p.1 "From") = true := by
    unfold delete_header
    exact any_key_filter_ne h1a (by decide)
  obtain ⟨hs2, hrep⟩ := replaceFirstHeader_some_of_any
    (v := N ++ " - " ++ str_replace C "@" " at " ++ " <" ++ fe.reply_email ++ ">") h1
  have hm2 : (delete_header (add_or_replace_header msg "X-SimpleLogin-Type" "Forward")
      "Reply-To").replace_header "From"
      (N ++ " - " ++ str_replace C "@" " at " ++ " <" ++ fe.reply_email ++ ">") =
      some { delete_header (add_or_replace_header msg "X-SimpleLogin-Type" "Forward")
             "Reply-To" with headers := hs2 } := by
    unfold Msg.replace_header
    rw [hrep]
    rfl
  have hget2 : ({ delete_header (add_or_replace_header msg "X-SimpleLogin-Type" "Forward")
      "Reply-To" with headers := hs2 } : Msg).get "From" =
      some (N ++ " - " ++ str_replace C "@" " at " ++ " <" ++ fe.reply_email ++ ">") := by
    unfold Msg.get
    dsimp only
    exact find?_replaceFirstHeader hrep
  unfold handle_forward
  dsimp only
  rw [hA]
  unfold forward_resolved
  dsimp only
  rw [hF]
  dsimp only
  rw [hpart, hen, hname]
  simp only [hNne, Bool.false_eq_true, if_false, if_true]
  unfold get_or_create_forward_email
  rw [hfe]
  dsimp only
  cases hb : (fe.website_from != f) with
  | true =>
    simp only [hb, if_true]
    rw [hm2]
    dsimp only
    refine ⟨_, rfl, ?_, rfl⟩
    unfold add_dkim_signature
    rw [get_add_or_replace_ne _ _ _ _ (by decide),
        get_add_or_replace_ne _ _ _ _ (by decide),
        get_add_or_replace_ne _ _ _ _ (by decide)]
    exact hget2
  | false =>
    simp only [hb, Bool.false_eq_true, if_false]
    rw [hm2]
    dsimp only
    refine ⟨_, rfl, ?_, rfl⟩
    unfold add_dkim_signature
    rw [get_add_or_replace_ne _ _ _ _ (by decide),
        get_add_or_replace_ne _ _ _ _ (by decide),
        get_add_or_replace_ne _ _ _ _ (by decide)]
    exact hget2

/-- Witness for C5: the Header scenario of the spec, with the quoted display
name, produces exactly the specified outbound From header. -/
theorem forward_from_header_rewrite_witness :
    ∃ o, handle_forward wCfgJane wStoreJane ⟨"jane@biz.example", ["x@relay.example"], [], []⟩
        wMsgJane (fun _ => "zzz") = Except.ok o ∧
      o.msg.get "From" = some "Jane Doe - jane at biz.example <abcd1234@relay.example>" ∧
      o.status = "250 Message accepted for delivery" := by
  obtain ⟨o, h1, h2, h3⟩ := forward_from_header_rewrite wCfgJane wStoreJane "jane@biz.example"
    "x@relay.example" [] [] [] wMsgJane (fun _ => "zzz") wGenJane
    "\"Jane Doe\" <jane@biz.example>" "Jane Doe" "jane@biz.example" wFeJane
    (by decide) (by decide) (by decide) (by decide) (by decide) (by decide) (by decide)
  refine ⟨o, h1, ?_, h3⟩
  rw [h2]
  decide

/-- updateFirst with a display-value update does not change the mapping keys. -/
theorem map_key_updateFirst (l : List ForwardEmail) (p : ForwardEmail → Bool) (wf : String) :
    (updateFirst p (fun fe => { fe with website_from := wf }) l).map
        (fun fe => (fe.gen_email_id, fe.website_email)) =
      l.map (fun fe => (fe.gen_email_id, fe.website_email)) := by
  induction l with
  | nil => rfl
  | cons x xs ih =>
    unfold updateFirst
    by_cases h : p x = true
    · simp [h]
    · have hf : p x = false := by
        cases hc : p x
        · rfl
        · exact absurd hc h
      simp [hf, ih]

/-- updateFirst passes over a block where the predicate never holds. -/
theorem updateFirst_append_of_none (p : α → Bool) (f : α → α) (l1 l2 : List α)
    (h : ∀ x ∈ l1, p x = false) :
    updateFirst p f (l1 ++ l2) = l1 ++ updateFirst p f l2 := by
  induction l1 with
  | nil => rfl
  | cons x xs ih =>
    have hx : p x = false := h x (by simp)
    have hstep : updateFirst p f (x :: (xs ++ l2)) =
        if p x = true then f x :: (xs ++ l2) else x :: updateFirst p f (xs ++ l2) := rfl
    rw [List.cons_append, hstep, hx]
    simp only [Bool.false_eq_true, if_false]
    rw [ih (fun y hy => h y (by simp [hy]))]
    simp

/-- updateFirst updates a matched singleton. -/
theorem updateFirst_singleton_pos (p : α → Bool) (f : α → α) (x : α) (h : p x = true) :
    updateFirst p f [x] = [f x] := by
  unfold updateFirst
  rw [h]
  simp

/-- handle_forward with a resolvable alias is the resolved tail. -/
theorem handle_forward_resolved_eq (cfg : Config) (s : Store) (mf r : String)
    (rs mo ro : List String) (msg : Msg) (rand : Nat → String) (g : GenEmail)
    (hA : GenEmail.get_by_email s (str_toLower r) = some g) :
    handle_forward cfg s ⟨mf, r :: rs, mo, ro⟩ msg rand =
      forward_resolved cfg s mo ro msg rand g [] := by
  unfold handle_forward
  dsimp only
  rw [hA]

/-- A successful resolved forward leaves the mapping table exactly as the
get-or-create step built it, and the alias table untouched. -/
theorem forward_resolved_ok_store (cfg : Config) (s : Store) (mo ro : List String)
    (msg : Msg) (rand : Nat → String) (g : GenEmail) (ns : List Notice) (o : Outcome)
    (f : String)
    (hF : msg.get "From" = some f)
    (hok : forward_resolved cfg s mo ro msg rand g ns = Except.ok o) :
    o.store.forward_emails =
      (get_or_create_forward_email cfg s g.id (get_email_part f) f rand).1.forward_emails ∧
    o.store.gen_emails = s.gen_emails := by
  unfold forward_resolved at hok
  dsimp only at hok
  rw [hF] at hok
  dsimp only at hok
  split at hok
  · split at hok
    · exact Except.noConfusion hok
    · injection hok with h
      subst h
      exact ⟨rfl, get_or_create_forward_email_gens cfg s g.id (get_email_part f) f rand⟩
  · injection hok with h
    subst h
    exact ⟨rfl, get_or_create_forward_email_gens cfg s g.id (get_email_part f) f rand⟩

/-- Creation branch of get-or-create: the new mapping row is appended. -/
theorem get_or_create_create_fes (cfg : Config) (s : Store) (gid : Nat) (we wf : String)
    (rand : Nat → String)
    (h : ForwardEmail.get_by_pair s gid we = none) :
    (get_or_create_forward_email cfg s gid we wf rand).1.forward_emails =
      s.forward_emails ++
        [{ id := s.next_fe_id, gen_email_id := gid, website_email := we,
           website_from := wf, reply_email := generate_reply_email cfg s rand }] := by
  unfold get_or_create_forward_email
  rw [h]

/-- Found branch with a changed display value: one in-place update. -/
theorem get_or_create_found_fes_update (cfg : Config) (s : Store) (gid : Nat) (we wf : String)
    (rand : Nat → String) (fe : ForwardEmail)
    (h : ForwardEmail.get_by_pair s gid we = some fe)
    (hne : (fe.website_from != wf) = true) :
    (get_or_create_forward_email cfg s gid we wf rand).1.forward_emails =
      updateFirst (fun x => x.gen_email_id == gid && x.website_email == we)
        (fun x => { x with website_from := wf }) s.forward_emails ∧
    (get_or_create_forward_email cfg s gid we wf rand).2 = { fe with website_from := wf } := by
  unfold get_or_create_forward_email
  rw [h]
  dsimp only
  rw [hne]
  simp only [if_true]
  exact ⟨by trivial, by trivial⟩

/-- Found branch with an unchanged display value: no store write at all. -/
theorem get_or_create_found_same (cfg : Config) (s : Store) (gid : Nat) (we wf : String)
    (rand : Nat → String) (fe : ForwardEmail)
    (h : ForwardEmail.get_by_pair s gid we = some fe)
    (heq : (fe.website_from != wf) = false) :
    (get_or_create_forward_email cfg s gid we wf rand).1 = s ∧
    (get_or_create_forward_email cfg s gid we wf rand).2 = fe := by
  unfold get_or_create_forward_email
  rw [h]
  dsimp only
  rw [heq]
  simp only [Bool.false_eq_true, if_false]
  exact ⟨by trivial, by trivial⟩

/-- Directory provisioning never touches the mapping table. -/
theorem try_create_directory_alias_fes (cfg : Config) (s : Store) (a : String) :
    (try_create_directory_alias cfg s a).1.forward_emails = s.forward_emails := by
  unfold try_create_directory_alias
  dsimp only
  split
  · split
    · split
      · split
        · rfl
        · rfl
      · rfl
    · rfl
  · rfl

/-- Catch-all provisioning never touches the mapping table. -/
theorem try_create_catch_all_alias_fes (cfg : Config) (s : Store) (a : String) :
    (try_create_catch_all_alias cfg s a).1.forward_emails = s.forward_emails := by
  unfold try_create_catch_all_alias
  dsimp only
  split
  · split
    · split
      · rfl
      · rfl
    · rfl
  · rfl

/-- A successful resolved forward preserves the at-most-one-mapping invariant. -/
theorem forward_resolved_unique (cfg : Config) (s : Store) (mo ro : List String)
    (msg : Msg) (rand : Nat → String) (g : GenEmail) (ns : List Notice) (o : Outcome)
    (hok : forward_resolved cfg s mo ro msg rand g ns = Except.ok o)
    (hu : mapping_unique s) : mapping_unique o.store := by
  cases hF : msg.get "From" with
  | none =>
    unfold forward_resolved at hok
    dsimp only at hok
    rw [hF] at hok
    exact Except.noConfusion hok
  | some f =>
    obtain ⟨hfes, _⟩ := forward_resolved_ok_store cfg s mo ro msg rand g ns o f hF hok
    unfold mapping_unique pair_keys at hu ⊢
    rw [hfes]
    cases hfe : ForwardEmail.get_by_pair s g.id (get_email_part f) with
    | some fe =>
      cases hb : (fe.website_from != f) with
      | true =>
        obtain ⟨hupd, _⟩ := get_or_create_found_fes_update cfg s g.id (get_email_part f) f rand fe hfe hb
        rw [hupd, map_key_updateFirst]
        exact hu
      | false =>
        obtain ⟨hsame, _⟩ := get_or_create_found_same cfg s g.id (get_email_part f) f rand fe hfe hb
        rw [hsame]
        exact hu
    | none =>
      rw [get_or_create_create_fes cfg s g.id (get_email_part f) f rand hfe]
      rw [List.map_append]
      have hnm : (g.id, get_email_part f) ∉
          s.forward_emails.map (fun fe => (fe.gen_email_id, fe.website_email)) := by
        intro hmem
        rcases List.mem_map.mp hmem with ⟨x, hx, hkey⟩
        have hpx := List.find?_eq_none.mp hfe x hx
        apply hpx
        have h1 : x.gen_email_id = g.id := congrArg Prod.fst hkey
        have h2 : x.website_email = get_email_part f := congrArg Prod.snd hkey
        simp [h1, h2]
      simp [List.nodup_append, hu, hnm]

/-- C3: (first part) two forwards from the same correspondent C to the same
alias create exactly one mapping: the first run appends it, the second run
re-fetches it, keeps its reply token, and changes at most the stored display
From value, and only when that value differs from the current From header.
(second part) every successful forward preserves the at-most-one-mapping-per-
(alias, correspondent) invariant. -/
theorem forward_mapping_get_or_create_unique :
    (∀ (cfg : Config) (s0 : Store) (mf1 mf2 r : String)
       (rs1 rs2 mo1 ro1 mo2 ro2 : List String)
       (msg1 msg2 : Msg) (rand1 rand2 : Nat → String) (g : GenEmail) (f1 f2 C : String)
       (o1 o2 : Outcome),
       GenEmail.get_by_email s0 (str_toLower r) = some g →
       ForwardEmail.get_by_pair s0 g.id C = none →
       msg1.get "From" = some f1 → get_email_part f1 = C →
       msg2.get "From" = some f2 → get_email_part f2 = C →
       handle_forward cfg s0 ⟨mf1, r :: rs1, mo1, ro1⟩ msg1 rand1 = Except.ok o1 →
       handle_forward cfg o1.store ⟨mf2, r :: rs2, mo2, ro2⟩ msg2 rand2 = Except.ok o2 →
       ∃ fe1 fe2,
         ForwardEmail.get_by_pair o1.store g.id C = some fe1 ∧
         ForwardEmail.get_by_pair o2.store g.id C = some fe2 ∧
         (o2.store.forward_emails.filter
           (fun fe => fe.gen_email_id == g.id && fe.website_email == C)).length = 1 ∧
         fe2.reply_email = fe1.reply_email ∧
         (f2 = fe1.website_from → o2.store.forward_emails = o1.store.forward_emails) ∧
         (f2 ≠ fe1.website_from → fe2 = { fe1 with website_from := f2 })) ∧
    (∀ (cfg : Config) (s : Store) (env : Envelope) (msg : Msg) (rand : Nat → String)
       (o : Outcome),
       handle_forward cfg s env msg rand = Except.ok o →
       mapping_unique s → mapping_unique o.store) := by
  constructor
  · intro cfg s0 mf1 mf2 r rs1 rs2 mo1 ro1 mo2 ro2 msg1 msg2 rand1 rand2 g f1 f2 C o1 o2
    intro hA h0 hF1 hp1 hF2 hp2 h1 h2
    have h0l : s0.forward_emails.find?
        (fun fe => fe.gen_email_id == g.id && fe.website_email == C) = none := h0
    have hall : ∀ x ∈ s0.forward_emails,
        (x.gen_email_id == g.id && x.website_email == C) = false := by
      intro x hx
      cases hc : (x.gen_email_id == g.id && x.website_email == C) with
      | false => rfl
      | true => exact absurd hc (List.find?_eq_none.mp h0l x hx)
    rw [handle_forward_resolved_eq cfg s0 mf1 r rs1 mo1 ro1 msg1 rand1 g hA] at h1
    obtain ⟨hfes1, hgens1⟩ := forward_resolved_ok_store cfg s0 mo1 ro1 msg1 rand1 g [] o1 f1 hF1 h1
    rw [hp1] at hfes1
    rw [get_or_create_create_fes cfg s0 g.id C f1 rand1 h0] at hfes1
    set fe1 : ForwardEmail :=
      { id := s0.next_fe_id, gen_email_id := g.id, website_email := C, website_from := f1,
        reply_email := generate_reply_email cfg s0 rand1 } with hfe1
    have hpred1 : (fe1.gen_email_id == g.id && fe1.website_email == C) = true := by
      rw [hfe1]
      simp
    have hg1 : ForwardEmail.get_by_pair o1.store g.id C = some fe1 := by
      unfold ForwardEmail.get_by_pair
      rw [hfes1, List.find?_append, h0l]
      simp only [Option.none_or]
      exact List.find?_cons_of_pos _ hpred1
    have hA2 : GenEmail.get_by_email o1.store (str_toLower r) = some g := by
      unfold GenEmail.get_by_email
      rw [hgens1]
      exact hA
    rw [handle_forward_resolved_eq cfg o1.store mf2 r rs2 mo2 ro2 msg2 rand2 g hA2] at h2
    obtain ⟨hfes2, hgens2⟩ :=
      forward_resolved_ok_store cfg o1.store mo2 ro2 msg2 rand2 g [] o2 f2 hF2 h2
    rw [hp2] at hfes2
    cases hb : (fe1.website_from != f2) with
    | false =>
      obtain ⟨hsame, _⟩ := get_or_create_found_same cfg o1.store g.id C f2 rand2 fe1 hg1 hb
      rw [hsame] at hfes2
      refine ⟨fe1, fe1, hg1, ?_, ?_, rfl, ?_, ?_⟩
      · unfold ForwardEmail.get_by_pair at hg1 ⊢
        rw [hfes2]
        exact hg1
      · rw [hfes2, hfes1, List.filter_append]
        rw [List.filter_eq_nil_iff.mpr (fun a ha => by rw [hall a ha]; exact Bool.false_ne_true)]
        simp [List.filter_cons, hpred1]
      · intro _
        exact hfes2
      · intro hne
        exfalso
        have hf12 : fe1.website_from = f2 := by simpa using hb
        exact hne hf12.symm
    | true =>
      obtain ⟨hupd, _⟩ := get_or_create_found_fes_update cfg o1.store g.id C f2 rand2 fe1 hg1 hb
      rw [hupd, hfes1] at hfes2
      rw [updateFirst_append_of_none _ _ _ _ hall] at hfes2
      rw [updateFirst_singleton_pos (fun fe => fe.gen_email_id == g.id && fe.website_email == C)
        (fun x => { x with website_from := f2 }) fe1 hpred1] at hfes2
      have hpred2 : (({ fe1 with website_from := f2 } : ForwardEmail).gen_email_id == g.id &&
          ({ fe1 with website_from := f2 } : ForwardEmail).website_email == C) = true := by
        rw [hfe1]
        simp
      refine ⟨fe1, { fe1 with website_from := f2 }, hg1, ?_, ?_, rfl, ?_, ?_⟩
      · unfold ForwardEmail.get_by_pair
        rw [hfes2, List.find?_append, h0l]
        simp only [Option.none_or]
        exact List.find?_cons_of_pos _ hpred2
      · rw [hfes2, List.filter_append]
        rw [List.filter_eq_nil_iff.mpr (fun a ha => by rw [hall a ha]; exact Bool.false_ne_true)]
        simp [List.filter_cons, hpred2]
      · intro heq
        exfalso
        have hne : fe1.website_from ≠ f2 := by simpa using hb
        exact hne heq.symm
      · intro _
        rfl
  · intro cfg s env msg rand o hok hu
    unfold handle_forward at hok
    cases henv : env.rcpt_tos with
    | nil =>
      rw [henv] at hok
      exact Except.noConfusion hok
    | cons r rs =>
      rw [henv] at hok
      dsimp only at hok
      cases hA : GenEmail.get_by_email s (str_toLower r) with
      | some g =>
        rw [hA] at hok
        exact forward_resolved_unique cfg s env.mail_options env.rcpt_options msg rand g [] o hok hu
      | none =>
        rw [hA] at hok
        dsimp only at hok
        cases hd : (try_create_directory_alias cfg s (str_toLower r)).2.1 with
        | some g =>
          rw [hd] at hok
          have hu1 : mapping_unique (try_create_directory_alias cfg s (str_toLower r)).1 := by
            unfold mapping_unique pair_keys
            rw [try_create_directory_alias_fes]
            exact hu
          exact forward_resolved_unique cfg _ env.mail_options env.rcpt_options msg rand g _ o hok hu1
        | none =>
          rw [hd] at hok
          dsimp only at hok
          cases hc : (try_create_catch_all_alias cfg
              (try_create_directory_alias cfg s (str_toLower r)).1 (str_toLower r)).2.1 with
          | some g =>
            rw [hc] at hok
            have hu2 : mapping_unique (try_create_catch_all_alias cfg
                (try_create_directory_alias cfg s (str_toLower r)).1 (str_toLower r)).1 := by
              unfold mapping_unique pair_keys
              rw [try_create_catch_all_alias_fes, try_create_directory_alias_fes]
              exact hu
            exact forward_resolved_unique cfg _ env.mail_options env.rcpt_options msg rand g _ o hok hu2
          | none =>
            rw [hc] at hok
            injection hok with h
            subst h
            unfold mapping_unique pair_keys
            dsimp only
            rw [try_create_catch_all_alias_fes, try_create_directory_alias_fes]
            exact hu

/-- Witness for C3: two concrete forwards from boss2@biz.example to
hello@sl.co create exactly one mapping whose reply token survives the second
run, and concrete forwards preserve the mapping-uniqueness invariant. -/
theorem forward_mapping_get_or_create_unique_witness :
    (∃ o1 o2,
      handle_forward wCfg wStore ⟨"boss2@biz.example", ["hello@sl.co"], [], []⟩ wMsgFwd1
          (fun _ => "r0") = Except.ok o1 ∧
      handle_forward wCfg o1.store ⟨"boss2@biz.example", ["hello@sl.co"], [], []⟩ wMsgFwd2
          (fun _ => "q0") = Except.ok o2 ∧
      ∃ fe1 fe2,
        ForwardEmail.get_by_pair o1.store wGen.id "boss2@biz.example" = some fe1 ∧
        ForwardEmail.get_by_pair o2.store wGen.id "boss2@biz.example" = some fe2 ∧
        (o2.store.forward_emails.filter
          (fun fe => fe.gen_email_id == wGen.id && fe.website_email == "boss2@biz.example")).length = 1 ∧
        fe2.reply_email = fe1.reply_email ∧
        ("\"The Boss\" <boss2@biz.example>" = fe1.website_from →
          o2.store.forward_emails = o1.store.forward_emails) ∧
        ("\"The Boss\" <boss2@biz.example>" ≠ fe1.website_from →
          fe2 = { fe1 with website_from := "\"The Boss\" <boss2@biz.example>" })) ∧
    (∃ o, handle_forward wCfg wStore ⟨"boss2@biz.example", ["hello@sl.co"], [], []⟩ wMsgFwd1
        (fun _ => "r0") = Except.ok o ∧
      mapping_unique wStore ∧ mapping_unique o.store) := by
  constructor
  · refine ⟨_, _, rfl, rfl, ?_⟩
    exact forward_mapping_get_or_create_unique.1 wCfg wStore "boss2@biz.example"
      "boss2@biz.example" "hello@sl.co" [] [] [] [] [] [] wMsgFwd1 wMsgFwd2
      (fun _ => "r0") (fun _ => "q0") wGen "Boss2 <boss2@biz.example>"
      "\"The Boss\" <boss2@biz.example>" "boss2@biz.example" _ _
      (by decide) (by decide) (by decide) (by decide) (by decide) (by decide) rfl rfl
  · refine ⟨_, rfl, ?_, ?_⟩
    · unfold mapping_unique pair_keys
      decide
    · exact forward_mapping_get_or_create_unique.2 wCfg wStore
        ⟨"boss2@biz.example", ["hello@sl.co"], [], []⟩ wMsgFwd1 (fun _ => "r0") _ rfl
        (by unfold mapping_unique pair_keys; decide)

/-- Witness for C8: a reply+ recipient and an ra+ recipient both route to the
reply pipeline, and a plain alias recipient routes to the forward pipeline. -/
theorem handle_DATA_classified_witness :
    (handle_DATA wCfg wStore ⟨"owner@mail.com", ["reply+tok@sl.co"], [], []⟩ wMsgReply
        (fun _ => "r0") =
      handle_reply wCfg wStore ⟨"owner@mail.com", ["reply+tok@sl.co"], [], []⟩ wMsgReply) ∧
    (handle_DATA wCfg wStore ⟨"owner@mail.com", ["ra+tok2@sl.co"], [], []⟩ wMsgReply
        (fun _ => "r0") =
      handle_reply wCfg wStore ⟨"owner@mail.com", ["ra+tok2@sl.co"], [], []⟩ wMsgReply) ∧
    (handle_DATA wCfg wStore ⟨"boss@biz.example", ["hello@sl.co"], [], []⟩ wMsgFwd
        (fun _ => "r0") =
      handle_forward wCfg wStore ⟨"boss@biz.example", ["hello@sl.co"], [], []⟩ wMsgFwd
        (fun _ => "r0")) :=
  ⟨(handle_DATA_classified_by_recipient_token wCfg wStore "owner@mail.com" "reply+tok@sl.co"
      [] [] [] wMsgReply (fun _ => "r0")).1 (by decide),
   (handle_DATA_classified_by_recipient_token wCfg wStore "owner@mail.com" "ra+tok2@sl.co"
      [] [] [] wMsgReply (fun _ => "r0")).1 (by decide),
   (handle_DATA_classified_by_recipient_token wCfg wStore "boss@biz.example" "hello@sl.co"
      [] [] [] wMsgFwd (fun _ => "r0")).2 (by decide)⟩

/-- Witness for C10 at a concrete reply input. -/
theorem reply_signing_custom_domain_never_absent_witness :
    handle_reply wCfg wStore ⟨"owner@mail.com", ["reply+tok@sl.co"], [], []⟩ wMsgReply ≠
      Except.error Fault.none_dkim_verified :=
  reply_signing_custom_domain_never_absent wCfg wStore
    ⟨"owner@mail.com", ["reply+tok@sl.co"], [], []⟩ wMsgReply
